import Mathlib

/-!
Verification development for the SPARK MCP wrapper
(`src/tools/02_spark_example.py`).

The wrapper exposes three tools — `create_spark_object`, `spark_vc` and
`spark_test` — each of which builds a command line, runs an external
`Rscript` subprocess, parses a delimited output file and deletes the
temporary file it read.  We embed:

* the command-line builders as pure functions on the typed parameters
  (`Float` parameters are modelled as `Rat`, their Python `str()`
  rendering by `pyFloatStr`);
* Python's `str.replace` (replace all non-overlapping occurrences,
  left to right) as `pyReplace`;
* the filesystem as an association list of paths to file data, the
  external engine as a function from an argument vector to an exit code
  and a set of file writes;
* each tool as a state-passing function returning the final filesystem,
  the list of subprocess invocations performed, and either a structured
  result or an error (Python exceptions become `Except.error`).

Parsed tables are modelled semantically: a summary CSV is the list of
its rows, a result table is a list of `TestRow` with a `gene` id, the
two p-value columns as rationals, and any further columns kept opaque.
-/

/-- Python `str(b).upper()` on a `bool`: `"TRUE"` or `"FALSE"`. -/
def pyBoolUpper (b : Bool) : String :=
  if b then "TRUE" else "FALSE"

/-- Models Python `str()` applied to the `float` parameter; the rendered
text is passed opaquely to the engine, so only its functional dependence
on the value matters here. -/
def pyFloatStr (q : Rat) : String :=
  toString q

/-- One scan step of Python `str.replace`: at each position, if the
pattern matches, emit the replacement and skip the pattern, else keep
the character.  Fuel bounds the recursion; `s.length` fuel is enough
because every step consumes at least one character of `s`. -/
def listReplaceAux : Nat → List Char → List Char → List Char → List Char
  | 0, s, _, _ => s
  | _ + 1, [], _, _ => []
  | fuel + 1, c :: rest, pat, rep =>
    if pat.isPrefixOf (c :: rest) ∧ pat ≠ [] then
      rep ++ listReplaceAux fuel ((c :: rest).drop pat.length) pat rep
    else
      c :: listReplaceAux fuel rest pat rep

/-- Python `s.replace(pat, rep)`: replace every non-overlapping
occurrence of `pat` in `s` by `rep`, scanning left to right. -/
def pyReplace (s pat rep : String) : String :=
  ⟨listReplaceAux s.data.length s.data pat.data rep.data⟩

/-- Models `Path(__file__).parent.parent / "r_scripts" / "02_spark_example"`,
the directory holding the R scripts; a fixed path constant. -/
def R_SCRIPT_DIR : String :=
  "src/r_scripts/02_spark_example"

/-- The tutorial reference URL returned by every tool. -/
def sparkReference : String :=
  "https://github.com/xzhoulab/SPARK/blob/master/docs/pages/02_SPARK_Example.md"

/-- One row of the summary CSV written by `create_spark_object.R`. -/
structure CreateRow where
  n_genes : Int
  n_spots : Int
  total_counts : Int
deriving DecidableEq

/-- One row of the summary CSV written by `spark_vc.R`. -/
structure VcRow where
  n_genes_fitted : Int
  status : String
deriving DecidableEq

/-- One row of the result table written by `spark_test.R`: the three
columns the wrapper uses, plus any further columns kept opaque. -/
structure TestRow where
  gene : String
  combined_pvalue : Rat
  adjusted_pvalue : Rat
  extra : List (String × String)
deriving DecidableEq

/-- A preview record: exactly the three selected columns
`gene`, `combined_pvalue`, `adjusted_pvalue`. -/
structure PreviewRow where
  gene : String
  combined_pvalue : Rat
  adjusted_pvalue : Rat
deriving DecidableEq

/-- The column selection `[["gene", "combined_pvalue", "adjusted_pvalue"]]`
applied to one row. -/
def previewOf (r : TestRow) : PreviewRow :=
  { gene := r.gene
    combined_pvalue := r.combined_pvalue
    adjusted_pvalue := r.adjusted_pvalue }

/-- Contents of a file: an opaque binary blob (`.rds` objects and the
empty file created by the temp-file allocator), or one of the parsed
table shapes. -/
inductive FileData where
  | blob : String → FileData
  | createSummary : List CreateRow → FileData
  | vcSummary : List VcRow → FileData
  | testTable : List TestRow → FileData
deriving DecidableEq

/-- The filesystem: an association list from paths to file data; the
first binding for a path is the current one. -/
abbrev FS := List (String × FileData)

/-- Look a path up in the filesystem. -/
def fsRead : FS → String → Option FileData
  | [], _ => none
  | e :: fs, p => if e.1 = p then some e.2 else fsRead fs p

/-- `Path(p).unlink()`: remove every binding of the path. -/
def fsUnlink : FS → String → FS
  | [], _ => []
  | e :: fs, p => if e.1 = p then fsUnlink fs p else e :: fsUnlink fs p

/-- Write (create or overwrite) a file. -/
def fsWrite (fs : FS) (p : String) (d : FileData) : FS :=
  (p, d) :: fsUnlink fs p

/-- Apply a batch of writes in order. -/
def fsWriteAll (fs : FS) (ws : List (String × FileData)) : FS :=
  ws.foldl (fun a w => fsWrite a w.1 w.2) fs

/-- The external engine (`Rscript` plus the R scripts), modelled by what
the wrapper can observe of one invocation: an exit code and the files
written, both as functions of the argument vector. -/
structure Engine where
  exitCode : List String → Nat
  writes : List String → List (String × FileData)

/-- The argument vector `create_spark_object` passes to `subprocess.run`. -/
def create_spark_object_cmd (counts_csv location_csv : String) (percentage : Rat)
    (min_total_counts seed : Int) (output_rds : String) : List String :=
  ["Rscript", R_SCRIPT_DIR ++ "/create_spark_object.R",
   "--counts", counts_csv,
   "--location", location_csv,
   "--percentage", pyFloatStr percentage,
   "--min_total_counts", toString min_total_counts,
   "--seed", toString seed,
   "--output", output_rds]

/-- `output_rds.replace(".rds", "_summary.csv")`, shared by
`create_spark_object` and `spark_vc`. -/
def create_summary_path (output_rds : String) : String :=
  pyReplace output_rds ".rds" "_summary.csv"

/-- The structured result of `create_spark_object`. -/
structure CreateResult where
  message : String
  reference : String
  spark_object_path : String
  n_genes : Int
  n_spots : Int
  total_counts : Int
deriving DecidableEq

/-- The dictionary `create_spark_object` builds from the first summary row. -/
def create_result (row : CreateRow) (output_rds : String) : CreateResult :=
  { message := "SPARK object created with " ++ toString row.n_genes ++
      " genes and " ++ toString row.n_spots ++ " spots"
    reference := sparkReference
    spark_object_path := output_rds
    n_genes := row.n_genes
    n_spots := row.n_spots
    total_counts := row.total_counts }

/-- The body of `create_spark_object`, from the temp-file allocation on:
the allocator has produced the fresh path `output_rds` (and created the
empty file), the subprocess runs once, and on exit code `0` the summary
is read, deleted, and its first row parsed into the result.  A non-zero
exit, a missing or malformed summary file, or an empty summary table
raise, i.e. give `Except.error`. -/
def create_spark_object_run (eng : Engine) (fs : FS)
    (counts_csv location_csv : String) (percentage : Rat)
    (min_total_counts seed : Int) (output_rds : String) :
    FS × List (List String) × Except String CreateResult :=
  let fs1 := fsWrite fs output_rds (FileData.blob "")
  let cmd := create_spark_object_cmd counts_csv location_csv percentage
    min_total_counts seed output_rds
  let fs2 := fsWriteAll fs1 (eng.writes cmd)
  if eng.exitCode cmd = 0 then
    let summary_csv := create_summary_path output_rds
    match fsRead fs2 summary_csv with
    | some (FileData.createSummary rows) =>
      let fs3 := fsUnlink fs2 summary_csv
      match rows with
      | row :: _ => (fs3, [cmd], Except.ok (create_result row output_rds))
      | [] => (fs3, [cmd], Except.error "KeyError: 0")
    | _ => (fs2, [cmd], Except.error "read_csv failed")
  else
    (fs2, [cmd], Except.error "CalledProcessError")

/-- The argument vector `spark_vc` passes to `subprocess.run`: the base
list, extended by `--covariates` exactly when `covariates_csv` is truthy
(not `None` and not the empty string). -/
def spark_vc_cmd (spark_object_rds : String) (covariates_csv : Option String)
    (num_core : Int) (verbose : Bool) (seed : Int) (output_rds : String) :
    List String :=
  let cmd := ["Rscript", R_SCRIPT_DIR ++ "/spark_vc.R",
    "--spark_object", spark_object_rds,
    "--num_core", toString num_core,
    "--verbose", pyBoolUpper verbose,
    "--seed", toString seed,
    "--output", output_rds]
  match covariates_csv with
  | none => cmd
  | some s => if s = "" then cmd else cmd ++ ["--covariates", s]

/-- The structured result of `spark_vc`. -/
structure VcResult where
  message : String
  reference : String
  fitted_spark_object_path : String
  n_genes_fitted : Int
  status : String
deriving DecidableEq

/-- The dictionary `spark_vc` builds from the first summary row. -/
def vc_result (row : VcRow) (output_rds : String) : VcResult :=
  { message := "Model parameters estimated for " ++
      toString row.n_genes_fitted ++ " genes"
    reference := sparkReference
    fitted_spark_object_path := output_rds
    n_genes_fitted := row.n_genes_fitted
    status := row.status }

/-- The body of `spark_vc`, with the same run/read/delete/parse shape as
`create_spark_object_run`. -/
def spark_vc_run (eng : Engine) (fs : FS)
    (spark_object_rds : String) (covariates_csv : Option String)
    (num_core : Int) (verbose : Bool) (seed : Int) (output_rds : String) :
    FS × List (List String) × Except String VcResult :=
  let fs1 := fsWrite fs output_rds (FileData.blob "")
  let cmd := spark_vc_cmd spark_object_rds covariates_csv num_core verbose
    seed output_rds
  let fs2 := fsWriteAll fs1 (eng.writes cmd)
  if eng.exitCode cmd = 0 then
    let summary_csv := create_summary_path output_rds
    match fsRead fs2 summary_csv with
    | some (FileData.vcSummary rows) =>
      let fs3 := fsUnlink fs2 summary_csv
      match rows with
      | row :: _ => (fs3, [cmd], Except.ok (vc_result row output_rds))
      | [] => (fs3, [cmd], Except.error "KeyError: 0")
    | _ => (fs2, [cmd], Except.error "read_csv failed")
  else
    (fs2, [cmd], Except.error "CalledProcessError")

/-- The argument vector `spark_test` passes to `subprocess.run`. -/
def spark_test_cmd (fitted_spark_object_rds : String) (check_positive : Bool)
    (verbose : Bool) (seed : Int) (output_csv : String) : List String :=
  ["Rscript", R_SCRIPT_DIR ++ "/spark_test.R",
   "--spark_object", fitted_spark_object_rds,
   "--check_positive", pyBoolUpper check_positive,
   "--verbose", pyBoolUpper verbose,
   "--seed", toString seed,
   "--output", output_csv]

/-- `output_csv.replace(".csv", ".rds")`: the companion model-handle path. -/
def tested_spark_path (output_csv : String) : String :=
  pyReplace output_csv ".csv" ".rds"

/-- The comparison `nsmallest` sorts by: ascending `adjusted_pvalue`. -/
def rowLe (a b : TestRow) : Bool :=
  decide (a.adjusted_pvalue ≤ b.adjusted_pvalue)

/-- The structured result of `spark_test`. -/
structure TestResult where
  message : String
  reference : String
  tested_spark_object_path : String
  n_genes_tested : Nat
  n_significant_genes : Nat
  results_preview : List PreviewRow
deriving DecidableEq

/-- Lines 162-173 of the source: everything `spark_test` computes from
the parsed result table.  `(results_df["adjusted_pvalue"] < 0.05).sum()`
is the number of rows strictly below 0.05; `nsmallest(10, ...)` is a
stable ascending sort by `adjusted_pvalue` truncated to ten rows, then
the three columns are selected. -/
def spark_test_parse (results_df : List TestRow) (output_csv : String) : TestResult :=
  let tested_spark_rds := tested_spark_path output_csv
  let n_significant := (results_df.filter
    (fun r => decide (r.adjusted_pvalue < 5 / 100))).length
  { message := "Spatial pattern testing completed. Found " ++
      toString n_significant ++ " significant genes (FDR < 0.05)."
    reference := sparkReference
    tested_spark_object_path := tested_spark_rds
    n_genes_tested := results_df.length
    n_significant_genes := n_significant
    results_preview := ((results_df.mergeSort rowLe).take 10).map previewOf }

/-- The body of `spark_test`: the temp `.csv` is created by the
allocator, the subprocess runs once, and on exit code `0` the result
table is read, the file deleted, and the table summarised.  A non-zero
exit or a missing/malformed result file raise. -/
def spark_test_run (eng : Engine) (fs : FS)
    (fitted_spark_object_rds : String) (check_positive verbose : Bool)
    (seed : Int) (output_csv : String) :
    FS × List (List String) × Except String TestResult :=
  let fs1 := fsWrite fs output_csv (FileData.blob "")
  let cmd := spark_test_cmd fitted_spark_object_rds check_positive verbose
    seed output_csv
  let fs2 := fsWriteAll fs1 (eng.writes cmd)
  if eng.exitCode cmd = 0 then
    match fsRead fs2 output_csv with
    | some (FileData.testTable rows) =>
      let fs3 := fsUnlink fs2 output_csv
      (fs3, [cmd], Except.ok (spark_test_parse rows output_csv))
    | _ => (fs2, [cmd], Except.error "read_csv failed")
  else
    (fs2, [cmd], Except.error "CalledProcessError")

/-! ### Helper lemmas about `pyReplace` and the filesystem model -/

theorem listReplaceAux_nil_input (f : Nat) (pat rep : List Char) :
    listReplaceAux f [] pat rep = [] := by
  cases f <;> rfl

theorem isPrefixOf_self (l : List Char) : l.isPrefixOf l = true := by
  induction l with
  | nil => rfl
  | cons c l ih => simp [List.isPrefixOf, ih]

theorem listReplaceAux_dot_suffix (pt rep : List Char) (stem : List Char)
    (h : '.' ∉ stem) :
    ∀ fuel : Nat, stem.length + 1 ≤ fuel →
      listReplaceAux fuel (stem ++ '.' :: pt) ('.' :: pt) rep = stem ++ rep := by
  induction stem with
  | nil =>
    intro fuel hf
    match fuel, hf with
    | f + 1, _ =>
      simp only [List.nil_append, listReplaceAux]
      rw [if_pos ⟨isPrefixOf_self _, by simp⟩]
      have hd : ('.' :: pt).drop ('.' :: pt).length = [] := List.drop_length _
      rw [hd, listReplaceAux_nil_input]
      simp
  | cons c stem ih =>
    intro fuel hf
    have hc : c ≠ '.' := by
      intro hc
      exact h (by simp [hc])
    have hstem : '.' ∉ stem := fun hm => h (List.mem_cons_of_mem _ hm)
    match fuel, hf with
    | f + 1, hf =>
      simp only [List.cons_append, listReplaceAux]
      rw [if_neg]
      · simp only [List.append_eq]
        rw [ih hstem f (by simpa using hf)]
      · intro hcon
        have := hcon.1
        simp only [List.isPrefixOf, Bool.and_eq_true, beq_iff_eq] at this
        exact hc this.1.symm

theorem pyReplace_rds_to_summary (s : String) (h : '.' ∉ s.data) :
    pyReplace (s ++ ".rds") ".rds" "_summary.csv" = s ++ "_summary.csv" := by
  obtain ⟨l⟩ := s
  have hl : '.' ∉ l := h
  show String.mk (listReplaceAux (l ++ '.' :: ['r', 'd', 's']).length
      (l ++ '.' :: ['r', 'd', 's']) ('.' :: ['r', 'd', 's'])
      "_summary.csv".data) = String.mk (l ++ "_summary.csv".data)
  rw [listReplaceAux_dot_suffix _ _ l hl _ (by simp)]

theorem pyReplace_csv_to_rds (s : String) (h : '.' ∉ s.data) :
    pyReplace (s ++ ".csv") ".csv" ".rds" = s ++ ".rds" := by
  obtain ⟨l⟩ := s
  have hl : '.' ∉ l := h
  show String.mk (listReplaceAux (l ++ '.' :: ['c', 's', 'v']).length
      (l ++ '.' :: ['c', 's', 'v']) ('.' :: ['c', 's', 'v'])
      ".rds".data) = String.mk (l ++ ".rds".data)
  rw [listReplaceAux_dot_suffix _ _ l hl _ (by simp)]

theorem string_append_ne_of_data_ne (t a b : String) (h : a.data ≠ b.data) :
    t ++ a ≠ t ++ b := by
  intro hcon
  have hd := congrArg String.data hcon
  rw [String.data_append, String.data_append] at hd
  exact h (List.append_cancel_left hd)

theorem fsRead_fsUnlink_self (fs : FS) (p : String) :
    fsRead (fsUnlink fs p) p = none := by
  induction fs with
  | nil => rfl
  | cons e fs ih =>
    by_cases hep : e.1 = p <;> simp [fsUnlink, fsRead, hep, ih]

theorem fsRead_fsUnlink_ne (fs : FS) (p q : String) (h : q ≠ p) :
    fsRead (fsUnlink fs p) q = fsRead fs q := by
  induction fs with
  | nil => rfl
  | cons e fs ih =>
    by_cases hep : e.1 = p
    · have heq : ¬ e.1 = q := by
        rw [hep]
        exact fun hc => h hc.symm
      have hpq : ¬ p = q := fun hc => h hc.symm
      simp [fsUnlink, fsRead, hep, heq, hpq, ih]
    · by_cases heq : e.1 = q <;> simp [fsUnlink, fsRead, hep, heq, h, ih]

theorem fsRead_fsWrite_self (fs : FS) (p : String) (d : FileData) :
    fsRead (fsWrite fs p d) p = some d := by
  simp [fsRead, fsWrite]

theorem fsRead_fsWrite_ne (fs : FS) (p q : String) (d : FileData) (h : q ≠ p) :
    fsRead (fsWrite fs p d) q = fsRead fs q := by
  have hpq : ¬ p = q := fun hc => h hc.symm
  simp only [fsRead, fsWrite, hpq, if_false]
  exact fsRead_fsUnlink_ne fs p q h

/-! ### Helper lemmas about the three tool bodies -/

theorem create_run_ok (eng : Engine) (fs : FS) (c l : String) (pc : Rat)
    (m sd : Int) (o : String) (row : CreateRow) (rest : List CreateRow)
    (hx : eng.exitCode (create_spark_object_cmd c l pc m sd o) = 0)
    (hw : eng.writes (create_spark_object_cmd c l pc m sd o) =
      [(create_summary_path o, FileData.createSummary (row :: rest))]) :
    (create_spark_object_run eng fs c l pc m sd o).2.2 =
      Except.ok (create_result row o) := by
  simp only [create_spark_object_run, hw, hx, if_pos, fsWriteAll, List.foldl,
    fsRead_fsWrite_self]

theorem vc_run_ok (eng : Engine) (fs : FS) (rds : String) (cov : Option String)
    (nc : Int) (vb : Bool) (sd : Int) (o : String) (row : VcRow) (rest : List VcRow)
    (hx : eng.exitCode (spark_vc_cmd rds cov nc vb sd o) = 0)
    (hw : eng.writes (spark_vc_cmd rds cov nc vb sd o) =
      [(create_summary_path o, FileData.vcSummary (row :: rest))]) :
    (spark_vc_run eng fs rds cov nc vb sd o).2.2 =
      Except.ok (vc_result row o) := by
  simp only [spark_vc_run, hw, hx, if_pos, fsWriteAll, List.foldl,
    fsRead_fsWrite_self]

theorem test_run_ok (eng : Engine) (fs : FS) (fit : String) (cp vb : Bool)
    (sd : Int) (o : String) (rows : List TestRow) (rdsPath : String) (bl : String)
    (hx : eng.exitCode (spark_test_cmd fit cp vb sd o) = 0)
    (hw : eng.writes (spark_test_cmd fit cp vb sd o) =
      [(rdsPath, FileData.blob bl), (o, FileData.testTable rows)]) :
    spark_test_run eng fs fit cp vb sd o =
      (fsUnlink (fsWrite (fsWrite (fsWrite fs o (FileData.blob "")) rdsPath
          (FileData.blob bl)) o (FileData.testTable rows)) o,
       [spark_test_cmd fit cp vb sd o],
       Except.ok (spark_test_parse rows o)) := by
  simp only [spark_test_run, hw, hx, if_pos, fsWriteAll, List.foldl,
    fsRead_fsWrite_self]

theorem test_run_ok_single (eng : Engine) (fs : FS) (fit : String)
    (cp vb : Bool) (sd : Int) (o : String) (rows : List TestRow)
    (hx : eng.exitCode (spark_test_cmd fit cp vb sd o) = 0)
    (hw : eng.writes (spark_test_cmd fit cp vb sd o) =
      [(o, FileData.testTable rows)]) :
    (spark_test_run eng fs fit cp vb sd o).2.2 =
      Except.ok (spark_test_parse rows o) := by
  simp only [spark_test_run, hw, hx, if_pos, fsWriteAll, List.foldl,
    fsRead_fsWrite_self]

theorem create_run_trace (eng : Engine) (fs : FS) (c l : String) (pc : Rat)
    (m sd : Int) (o : String) :
    (create_spark_object_run eng fs c l pc m sd o).2.1 =
      [create_spark_object_cmd c l pc m sd o] := by
  unfold create_spark_object_run
  dsimp only
  split
  · split
    · split <;> rfl
    · rfl
  · rfl

theorem vc_run_trace (eng : Engine) (fs : FS) (rds : String) (cov : Option String)
    (nc : Int) (vb : Bool) (sd : Int) (o : String) :
    (spark_vc_run eng fs rds cov nc vb sd o).2.1 =
      [spark_vc_cmd rds cov nc vb sd o] := by
  unfold spark_vc_run
  dsimp only
  split
  · split
    · split <;> rfl
    · rfl
  · rfl

theorem test_run_trace (eng : Engine) (fs : FS) (fit : String) (cp vb : Bool)
    (sd : Int) (o : String) :
    (spark_test_run eng fs fit cp vb sd o).2.1 =
      [spark_test_cmd fit cp vb sd o] := by
  unfold spark_test_run
  dsimp only
  split
  · split <;> rfl
  · rfl

theorem create_run_success_absent (eng : Engine) (fs : FS) (c l : String)
    (pc : Rat) (m sd : Int) (o : String)
    (h : ((create_spark_object_run eng fs c l pc m sd o).2.2).isOk = true) :
    fsRead (create_spark_object_run eng fs c l pc m sd o).1
      (create_summary_path o) = none := by
  by_cases hx : eng.exitCode (create_spark_object_cmd c l pc m sd o) = 0
  · simp only [create_spark_object_run, hx, if_pos] at h ⊢
    generalize hr : fsRead (fsWriteAll (fsWrite fs o (FileData.blob ""))
        (eng.writes (create_spark_object_cmd c l pc m sd o)))
        (create_summary_path o) = res at h ⊢
    cases res with
    | none => exact absurd h (by simp [Except.isOk, Except.toBool])
    | some d =>
      cases d with
      | createSummary rows =>
        cases rows with
        | nil => exact fsRead_fsUnlink_self _ _
        | cons r rs => exact fsRead_fsUnlink_self _ _
      | blob s => exact absurd h (by simp [Except.isOk, Except.toBool])
      | vcSummary rows => exact absurd h (by simp [Except.isOk, Except.toBool])
      | testTable rows => exact absurd h (by simp [Except.isOk, Except.toBool])
  · simp [create_spark_object_run, hx, Except.isOk, Except.toBool] at h

theorem vc_run_success_absent (eng : Engine) (fs : FS) (rds : String)
    (cov : Option String) (nc : Int) (vb : Bool) (sd : Int) (o : String)
    (h : ((spark_vc_run eng fs rds cov nc vb sd o).2.2).isOk = true) :
    fsRead (spark_vc_run eng fs rds cov nc vb sd o).1
      (create_summary_path o) = none := by
  by_cases hx : eng.exitCode (spark_vc_cmd rds cov nc vb sd o) = 0
  · simp only [spark_vc_run, hx, if_pos] at h ⊢
    generalize hr : fsRead (fsWriteAll (fsWrite fs o (FileData.blob ""))
        (eng.writes (spark_vc_cmd rds cov nc vb sd o)))
        (create_summary_path o) = res at h ⊢
    cases res with
    | none => exact absurd h (by simp [Except.isOk, Except.toBool])
    | some d =>
      cases d with
      | vcSummary rows =>
        cases rows with
        | nil => exact fsRead_fsUnlink_self _ _
        | cons r rs => exact fsRead_fsUnlink_self _ _
      | blob s => exact absurd h (by simp [Except.isOk, Except.toBool])
      | createSummary rows => exact absurd h (by simp [Except.isOk, Except.toBool])
      | testTable rows => exact absurd h (by simp [Except.isOk, Except.toBool])
  · simp [spark_vc_run, hx, Except.isOk, Except.toBool] at h

theorem test_run_success_absent (eng : Engine) (fs : FS) (fit : String)
    (cp vb : Bool) (sd : Int) (o : String)
    (h : ((spark_test_run eng fs fit cp vb sd o).2.2).isOk = true) :
    fsRead (spark_test_run eng fs fit cp vb sd o).1 o = none := by
  by_cases hx : eng.exitCode (spark_test_cmd fit cp vb sd o) = 0
  · simp only [spark_test_run, hx, if_pos] at h ⊢
    generalize hr : fsRead (fsWriteAll (fsWrite fs o (FileData.blob ""))
        (eng.writes (spark_test_cmd fit cp vb sd o))) o = res at h ⊢
    cases res with
    | none => exact absurd h (by simp [Except.isOk, Except.toBool])
    | some d =>
      cases d with
      | testTable rows => exact fsRead_fsUnlink_self _ _
      | blob s => exact absurd h (by simp [Except.isOk, Except.toBool])
      | createSummary rows => exact absurd h (by simp [Except.isOk, Except.toBool])
      | vcSummary rows => exact absurd h (by simp [Except.isOk, Except.toBool])
  · simp [spark_test_run, hx, Except.isOk, Except.toBool] at h

theorem create_run_fail (eng : Engine) (fs : FS) (c l : String) (pc : Rat)
    (m sd : Int) (o : String)
    (hx : eng.exitCode (create_spark_object_cmd c l pc m sd o) ≠ 0) :
    (create_spark_object_run eng fs c l pc m sd o).2.2 =
      Except.error "CalledProcessError" := by
  simp [create_spark_object_run, hx]

theorem vc_run_fail (eng : Engine) (fs : FS) (rds : String) (cov : Option String)
    (nc : Int) (vb : Bool) (sd : Int) (o : String)
    (hx : eng.exitCode (spark_vc_cmd rds cov nc vb sd o) ≠ 0) :
    (spark_vc_run eng fs rds cov nc vb sd o).2.2 =
      Except.error "CalledProcessError" := by
  simp [spark_vc_run, hx]

theorem test_run_fail (eng : Engine) (fs : FS) (fit : String) (cp vb : Bool)
    (sd : Int) (o : String)
    (hx : eng.exitCode (spark_test_cmd fit cp vb sd o) ≠ 0) :
    (spark_test_run eng fs fit cp vb sd o).2.2 =
      Except.error "CalledProcessError" := by
  simp [spark_test_run, hx]

theorem rowLe_trans : ∀ a b c : TestRow,
    rowLe a b = true → rowLe b c = true → rowLe a c = true := by
  intro a b c hab hbc
  simp only [rowLe, decide_eq_true_eq] at hab hbc ⊢
  exact le_trans hab hbc

theorem rowLe_total : ∀ a b : TestRow, (rowLe a b || rowLe b a) = true := by
  intro a b
  simp only [rowLe, Bool.or_eq_true, decide_eq_true_eq]
  exact le_total _ _

/-! ### Claim theorems -/

/-- Claim C1: for every result table parsed by the Hypothesis Tester, the
returned `n_significant_genes` equals the number of rows of the full table
whose `adjusted_pvalue` is strictly below 0.05, computed by this layer by
filtering the column — over all rows, not only the ten-row preview. -/
theorem spark_test_significant_count_full_table (rows : List TestRow) (out : String) :
    (spark_test_parse rows out).n_significant_genes =
      rows.countP (fun r => decide (r.adjusted_pvalue < 5 / 100)) := by
  simp [spark_test_parse, List.countP_eq_length_filter]

/-- Claim C2: when the table has at least ten rows, the returned
`results_preview` is exactly the first ten rows of an
`adjusted_pvalue`-sorted permutation of the full table, each reduced to the
three preview fields, and it has exactly ten entries — so no other row of
the table appears in the returned structure. -/
theorem spark_test_preview_is_ten_smallest (rows : List TestRow) (out : String)
    (h : 10 ≤ rows.length) :
    ∃ sorted : List TestRow,
      rows.Perm sorted ∧
      sorted.Pairwise (fun a b => a.adjusted_pvalue ≤ b.adjusted_pvalue) ∧
      (spark_test_parse rows out).results_preview =
        (sorted.take 10).map previewOf ∧
      (spark_test_parse rows out).results_preview.length = 10 := by
  refine ⟨rows.mergeSort rowLe, (List.mergeSort_perm rows rowLe).symm, ?_, rfl, ?_⟩
  · exact (List.sorted_mergeSort rowLe_trans rowLe_total rows).imp
      (fun hab => by simpa [rowLe] using hab)
  · simp only [spark_test_parse, List.length_map, List.length_take]
    rw [(List.mergeSort_perm rows rowLe).length_eq]
    omega

/-- Claim C2 witness: a concrete eleven-row table. -/
theorem spark_test_preview_is_ten_smallest_witness :
    10 ≤ (List.replicate 11 (TestRow.mk "g" 0 0 [])).length ∧
    (∃ sorted : List TestRow,
      (List.replicate 11 (TestRow.mk "g" 0 0 [])).Perm sorted ∧
      sorted.Pairwise (fun a b => a.adjusted_pvalue ≤ b.adjusted_pvalue) ∧
      (spark_test_parse (List.replicate 11 (TestRow.mk "g" 0 0 []))
        "res.csv").results_preview = (sorted.take 10).map previewOf ∧
      (spark_test_parse (List.replicate 11 (TestRow.mk "g" 0 0 []))
        "res.csv").results_preview.length = 10) :=
  ⟨by decide, spark_test_preview_is_ten_smallest _ "res.csv" (by decide)⟩

/-- Claim C9: an empty-string covariates path is treated by `spark_vc`
exactly like an absent one — Python truthiness omits the `--covariates`
argument in both cases, giving identical invocations. -/
theorem spark_vc_cmd_empty_covariates (rds : String) (nc : Int) (vb : Bool)
    (sd : Int) (o : String) :
    spark_vc_cmd rds (some "") nc vb sd o = spark_vc_cmd rds none nc vb sd o := rfl

/-- Claim C10: `n_genes_tested` is the number of rows of the parsed table
and the preview holds `min 10 n` entries; when the table has at most ten
rows the preview is a permutation of all the table's rows (projected to
the three preview fields), so every reported gene appears in it; an empty
table gives zero and an empty preview rather than an error. -/
theorem spark_test_counts_and_preview_length (rows : List TestRow) (out : String) :
    (spark_test_parse rows out).n_genes_tested = rows.length ∧
    (spark_test_parse rows out).results_preview.length = min 10 rows.length ∧
    (rows.length ≤ 10 →
      (spark_test_parse rows out).results_preview.Perm (rows.map previewOf)) ∧
    (spark_test_parse [] out).n_genes_tested = 0 ∧
    (spark_test_parse [] out).results_preview = [] := by
  refine ⟨rfl, ?_, ?_, rfl, ?_⟩
  · simp only [spark_test_parse, List.length_map, List.length_take]
    rw [(List.mergeSort_perm rows rowLe).length_eq]
  · intro h
    have hlen : (rows.mergeSort rowLe).length ≤ 10 := by
      rw [(List.mergeSort_perm rows rowLe).length_eq]
      exact h
    show (((rows.mergeSort rowLe).take 10).map previewOf).Perm (rows.map previewOf)
    rw [List.take_of_length_le hlen]
    exact (List.mergeSort_perm rows rowLe).map previewOf
  · simp [spark_test_parse]

/-- Claim C10 witness: a concrete three-row table whose preview is a
permutation of all three projected rows. -/
theorem spark_test_counts_and_preview_length_witness :
    (spark_test_parse (List.replicate 3 (TestRow.mk "g" 0 0 []))
      "r.csv").n_genes_tested = (List.replicate 3 (TestRow.mk "g" 0 0 [])).length ∧
    (spark_test_parse (List.replicate 3 (TestRow.mk "g" 0 0 []))
      "r.csv").results_preview.length =
      min 10 (List.replicate 3 (TestRow.mk "g" 0 0 [])).length ∧
    (List.replicate 3 (TestRow.mk "g" 0 0 [])).length ≤ 10 ∧
    (spark_test_parse (List.replicate 3 (TestRow.mk "g" 0 0 []))
      "r.csv").results_preview.Perm
      ((List.replicate 3 (TestRow.mk "g" 0 0 [])).map previewOf) :=
  ⟨(spark_test_counts_and_preview_length
      (List.replicate 3 (TestRow.mk "g" 0 0 [])) "r.csv").1,
   (spark_test_counts_and_preview_length
      (List.replicate 3 (TestRow.mk "g" 0 0 [])) "r.csv").2.1,
   by decide,
   (spark_test_counts_and_preview_length
      (List.replicate 3 (TestRow.mk "g" 0 0 [])) "r.csv").2.2.1 (by decide)⟩

/-- Claim C3: with covariates absent, the Model Fitter invocation carries
no covariates argument and no placeholder, while supplying a (non-empty)
covariates path appends `--covariates` followed by that path; the two
invocations are different argument lists. -/
theorem spark_vc_cmd_covariates_optional (rds p : String) (nc : Int) (vb : Bool)
    (sd : Int) (o : String) (hp : p ≠ "") :
    spark_vc_cmd rds none nc vb sd o =
      ["Rscript", R_SCRIPT_DIR ++ "/spark_vc.R",
       "--spark_object", rds,
       "--num_core", toString nc,
       "--verbose", pyBoolUpper vb,
       "--seed", toString sd,
       "--output", o] ∧
    spark_vc_cmd rds (some p) nc vb sd o =
      spark_vc_cmd rds none nc vb sd o ++ ["--covariates", p] ∧
    spark_vc_cmd rds (some p) nc vb sd o ≠ spark_vc_cmd rds none nc vb sd o := by
  refine ⟨rfl, ?_, ?_⟩
  · simp [spark_vc_cmd, hp]
  · intro hcon
    have hlen := congrArg List.length hcon
    simp [spark_vc_cmd, hp] at hlen

/-- Claim C3 witness: concrete parameters with a non-empty covariates path. -/
theorem spark_vc_cmd_covariates_optional_witness :
    ("cov.csv" : String) ≠ "" ∧
    (spark_vc_cmd "obj.rds" none 1 false 42 "out.rds" =
      ["Rscript", R_SCRIPT_DIR ++ "/spark_vc.R",
       "--spark_object", "obj.rds",
       "--num_core", toString (1 : Int),
       "--verbose", pyBoolUpper false,
       "--seed", toString (42 : Int),
       "--output", "out.rds"] ∧
    spark_vc_cmd "obj.rds" (some "cov.csv") 1 false 42 "out.rds" =
      spark_vc_cmd "obj.rds" none 1 false 42 "out.rds" ++ ["--covariates", "cov.csv"] ∧
    spark_vc_cmd "obj.rds" (some "cov.csv") 1 false 42 "out.rds" ≠
      spark_vc_cmd "obj.rds" none 1 false 42 "out.rds") :=
  ⟨by decide,
   spark_vc_cmd_covariates_optional "obj.rds" "cov.csv" 1 false 42 "out.rds" (by decide)⟩

/-- Claim C4: for each of the three tools, a non-zero exit status of the
external subprocess aborts the call before any output file is parsed:
exactly one subprocess invocation is in the trace, the result is the
propagated error, and no result structure is produced. -/
theorem nonzero_exit_aborts_all_tools (eng : Engine) (fs : FS)
    (c l : String) (pc : Rat) (m sd1 : Int) (o1 : String)
    (rds : String) (cov : Option String) (nc : Int) (vb2 : Bool) (sd2 : Int)
    (o2 : String) (fit : String) (cp vb3 : Bool) (sd3 : Int) (o3 : String)
    (h1 : eng.exitCode (create_spark_object_cmd c l pc m sd1 o1) ≠ 0)
    (h2 : eng.exitCode (spark_vc_cmd rds cov nc vb2 sd2 o2) ≠ 0)
    (h3 : eng.exitCode (spark_test_cmd fit cp vb3 sd3 o3) ≠ 0) :
    (create_spark_object_run eng fs c l pc m sd1 o1).2 =
      ([create_spark_object_cmd c l pc m sd1 o1],
       Except.error "CalledProcessError") ∧
    (spark_vc_run eng fs rds cov nc vb2 sd2 o2).2 =
      ([spark_vc_cmd rds cov nc vb2 sd2 o2],
       Except.error "CalledProcessError") ∧
    (spark_test_run eng fs fit cp vb3 sd3 o3).2 =
      ([spark_test_cmd fit cp vb3 sd3 o3],
       Except.error "CalledProcessError") := by
  refine ⟨?_, ?_, ?_⟩
  · simp [create_spark_object_run, h1]
  · simp [spark_vc_run, h2]
  · simp [spark_test_run, h3]

/-- An engine whose every invocation exits with status 1 and writes nothing. -/
def failEngine : Engine :=
  { exitCode := fun _ => 1
    writes := fun _ => [] }

/-- Claim C4 witness: a failing engine at concrete inputs for all three tools. -/
theorem nonzero_exit_aborts_all_tools_witness :
    failEngine.exitCode (create_spark_object_cmd "c.csv" "l.csv" 0 10 42 "a.rds") ≠ 0 ∧
    failEngine.exitCode (spark_vc_cmd "a.rds" none 1 false 42 "b.rds") ≠ 0 ∧
    failEngine.exitCode (spark_test_cmd "b.rds" true false 42 "t.csv") ≠ 0 ∧
    ((create_spark_object_run failEngine [] "c.csv" "l.csv" 0 10 42 "a.rds").2 =
      ([create_spark_object_cmd "c.csv" "l.csv" 0 10 42 "a.rds"],
       Except.error "CalledProcessError") ∧
    (spark_vc_run failEngine [] "a.rds" none 1 false 42 "b.rds").2 =
      ([spark_vc_cmd "a.rds" none 1 false 42 "b.rds"],
       Except.error "CalledProcessError") ∧
    (spark_test_run failEngine [] "b.rds" true false 42 "t.csv").2 =
      ([spark_test_cmd "b.rds" true false 42 "t.csv"],
       Except.error "CalledProcessError")) :=
  ⟨by decide, by decide, by decide,
   nonzero_exit_aborts_all_tools failEngine [] "c.csv" "l.csv" 0 10 42 "a.rds"
     "a.rds" none 1 false 42 "b.rds" "b.rds" true false 42 "t.csv"
     (by decide) (by decide) (by decide)⟩

/-- Claim C5 counterexample: with a failing engine, `spark_test` aborts and
the result `.csv` temp file (created by the allocator before the
invocation) is still present on the filesystem afterwards — refuting
deletion `regardless of whether the call succeeded`. -/
theorem spark_test_temp_file_survives_failure :
    (spark_test_run failEngine [] "fit.rds" true false 42 "t.csv").2.2 =
      Except.error "CalledProcessError" ∧
    fsRead (spark_test_run failEngine [] "fit.rds" true false 42 "t.csv").1
      "t.csv" = some (FileData.blob "") := by
  constructor <;> rfl

/-- Claim C5 (amended): on every call that succeeds, the temporary summary
or result file the tool read has been deleted and is absent from the final
filesystem; when the subprocess exits non-zero no deletion occurs (see the
counterexample, where the result `.csv` survives the failed call). -/
theorem temp_files_absent_after_success (eng : Engine) (fs : FS)
    (c l : String) (pc : Rat) (m sd1 : Int) (o1 : String)
    (rds : String) (cov : Option String) (nc : Int) (vb2 : Bool) (sd2 : Int)
    (o2 : String) (fit : String) (cp vb3 : Bool) (sd3 : Int) (o3 : String)
    (h1 : ((create_spark_object_run eng fs c l pc m sd1 o1).2.2).isOk = true)
    (h2 : ((spark_vc_run eng fs rds cov nc vb2 sd2 o2).2.2).isOk = true)
    (h3 : ((spark_test_run eng fs fit cp vb3 sd3 o3).2.2).isOk = true) :
    fsRead (create_spark_object_run eng fs c l pc m sd1 o1).1
      (create_summary_path o1) = none ∧
    fsRead (spark_vc_run eng fs rds cov nc vb2 sd2 o2).1
      (create_summary_path o2) = none ∧
    fsRead (spark_test_run eng fs fit cp vb3 sd3 o3).1 o3 = none :=
  ⟨create_run_success_absent eng fs c l pc m sd1 o1 h1,
   vc_run_success_absent eng fs rds cov nc vb2 sd2 o2 h2,
   test_run_success_absent eng fs fit cp vb3 sd3 o3 h3⟩

/-- An engine that succeeds and writes the summary/result file each script
is expected to produce, keyed on the script-path argument. -/
def okEngine : Engine :=
  { exitCode := fun _ => 0
    writes := fun c =>
      match c with
      | _ :: s :: _ =>
        if s = R_SCRIPT_DIR ++ "/create_spark_object.R" then
          [(create_summary_path "tmpa.rds",
            FileData.createSummary [CreateRow.mk 100 50 2000])]
        else if s = R_SCRIPT_DIR ++ "/spark_vc.R" then
          [(create_summary_path "tmpb.rds",
            FileData.vcSummary [VcRow.mk 100 "success"])]
        else
          [("tmpc.csv", FileData.testTable [])]
      | _ => [] }

/-- Claim C5 witness: three concrete successful calls, after each of which
the summary/result temp file is gone. -/
theorem temp_files_absent_after_success_witness :
    ((create_spark_object_run okEngine [] "c.csv" "l.csv" 0 10 42
      "tmpa.rds").2.2).isOk = true ∧
    ((spark_vc_run okEngine [] "tmpa.rds" none 1 false 42
      "tmpb.rds").2.2).isOk = true ∧
    ((spark_test_run okEngine [] "tmpb.rds" true false 42
      "tmpc.csv").2.2).isOk = true ∧
    (fsRead (create_spark_object_run okEngine [] "c.csv" "l.csv" 0 10 42
      "tmpa.rds").1 (create_summary_path "tmpa.rds") = none ∧
    fsRead (spark_vc_run okEngine [] "tmpa.rds" none 1 false 42
      "tmpb.rds").1 (create_summary_path "tmpb.rds") = none ∧
    fsRead (spark_test_run okEngine [] "tmpb.rds" true false 42
      "tmpc.csv").1 "tmpc.csv" = none) :=
  ⟨by decide, by decide, by decide,
   temp_files_absent_after_success okEngine [] "c.csv" "l.csv" 0 10 42 "tmpa.rds"
     "tmpa.rds" none 1 false 42 "tmpb.rds" "tmpb.rds" true false 42 "tmpc.csv"
     (by decide) (by decide) (by decide)⟩

/-- Claim C6: auxiliary paths are suffix substitutions sharing the base
name — the summary is read at the output path with `.rds` replaced by
`_summary.csv` (Object Builder and Model Fitter), and `spark_test` returns
the companion model handle at the result path with `.csv` replaced by
`.rds`; the companion file is not deleted: after a successful call it
still holds what the engine wrote and its path is in the returned result. -/
theorem derived_paths_and_companion_preserved (s t : String)
    (hs : '.' ∉ s.data) (ht : '.' ∉ t.data)
    (eng : Engine) (fs : FS) (fit : String) (cp vb : Bool) (sd : Int)
    (rows : List TestRow) (bl : String)
    (hx : eng.exitCode (spark_test_cmd fit cp vb sd (t ++ ".csv")) = 0)
    (hw : eng.writes (spark_test_cmd fit cp vb sd (t ++ ".csv")) =
      [(t ++ ".rds", FileData.blob bl), (t ++ ".csv", FileData.testTable rows)]) :
    create_summary_path (s ++ ".rds") = s ++ "_summary.csv" ∧
    tested_spark_path (t ++ ".csv") = t ++ ".rds" ∧
    (spark_test_run eng fs fit cp vb sd (t ++ ".csv")).2.2 =
      Except.ok (spark_test_parse rows (t ++ ".csv")) ∧
    (spark_test_parse rows (t ++ ".csv")).tested_spark_object_path = t ++ ".rds" ∧
    fsRead (spark_test_run eng fs fit cp vb sd (t ++ ".csv")).1 (t ++ ".rds") =
      some (FileData.blob bl) := by
  have hne : (t ++ ".rds") ≠ (t ++ ".csv") :=
    string_append_ne_of_data_ne t ".rds" ".csv" (by decide)
  have hrun := test_run_ok eng fs fit cp vb sd (t ++ ".csv") rows (t ++ ".rds")
    bl hx hw
  refine ⟨pyReplace_rds_to_summary s hs, pyReplace_csv_to_rds t ht, ?_, ?_, ?_⟩
  · rw [hrun]
  · show tested_spark_path (t ++ ".csv") = t ++ ".rds"
    exact pyReplace_csv_to_rds t ht
  · rw [hrun]
    show fsRead (fsUnlink (fsWrite (fsWrite (fsWrite fs (t ++ ".csv")
      (FileData.blob "")) (t ++ ".rds") (FileData.blob bl)) (t ++ ".csv")
      (FileData.testTable rows)) (t ++ ".csv")) (t ++ ".rds") =
      some (FileData.blob bl)
    rw [fsRead_fsUnlink_ne _ _ _ hne, fsRead_fsWrite_ne _ _ _ _ hne]
    exact fsRead_fsWrite_self _ _ _

/-- An engine for the companion-file scenario: it writes the model handle
blob and the result table at the two derived paths. -/
def companionEngine : Engine :=
  { exitCode := fun _ => 0
    writes := fun _ =>
      [("tmpb.rds", FileData.blob "model"),
       ("tmpb.csv", FileData.testTable [])] }

/-- Claim C6 witness: concrete dot-free stems and a successful engine. -/
theorem derived_paths_and_companion_preserved_witness :
    '.' ∉ ("tmpa" : String).data ∧
    '.' ∉ ("tmpb" : String).data ∧
    companionEngine.exitCode (spark_test_cmd "fit.rds" true false 42
      ("tmpb" ++ ".csv")) = 0 ∧
    companionEngine.writes (spark_test_cmd "fit.rds" true false 42
      ("tmpb" ++ ".csv")) =
      [("tmpb" ++ ".rds", FileData.blob "model"),
       ("tmpb" ++ ".csv", FileData.testTable [])] ∧
    (create_summary_path ("tmpa" ++ ".rds") = "tmpa" ++ "_summary.csv" ∧
    tested_spark_path ("tmpb" ++ ".csv") = "tmpb" ++ ".rds" ∧
    (spark_test_run companionEngine [] "fit.rds" true false 42
      ("tmpb" ++ ".csv")).2.2 =
      Except.ok (spark_test_parse [] ("tmpb" ++ ".csv")) ∧
    (spark_test_parse [] ("tmpb" ++ ".csv")).tested_spark_object_path =
      "tmpb" ++ ".rds" ∧
    fsRead (spark_test_run companionEngine [] "fit.rds" true false 42
      ("tmpb" ++ ".csv")).1 ("tmpb" ++ ".rds") = some (FileData.blob "model")) :=
  ⟨by decide, by decide, by decide, by decide,
   derived_paths_and_companion_preserved "tmpa" "tmpb" (by decide) (by decide)
     companionEngine [] "fit.rds" true false 42 [] "model" (by decide) (by decide)⟩

/-- Claim C7: two calls to the same tool with identical parameters and seed
produce argument vectors identical except for the fresh temporary output
path (the vectors differ in exactly that one position), and — modelling
the engine as a deterministic function of the non-output inputs, i.e. an
engine producing the same exit code and the same summary/result rows for
both invocations — the returned summary counts of the two runs are
identical for each of the three tools. -/
theorem seed_determinism_identical_counts
    (c l : String) (pc : Rat) (m sd1 : Int) (t1 t2 : String)
    (rds : String) (cov : Option String) (nc : Int) (vb2 : Bool) (sd2 : Int)
    (u1 u2 : String) (fit : String) (cp vb3 : Bool) (sd3 : Int) (v1 v2 : String)
    (e1 e2 e3 : Engine) (fsA fsB : FS)
    (crow : CreateRow) (crest : List CreateRow)
    (vrow : VcRow) (vrest : List VcRow) (trows : List TestRow)
    (hx1 : e1.exitCode (create_spark_object_cmd c l pc m sd1 t1) = 0)
    (hx2 : e1.exitCode (create_spark_object_cmd c l pc m sd1 t2) = 0)
    (hw1 : e1.writes (create_spark_object_cmd c l pc m sd1 t1) =
      [(create_summary_path t1, FileData.createSummary (crow :: crest))])
    (hw2 : e1.writes (create_spark_object_cmd c l pc m sd1 t2) =
      [(create_summary_path t2, FileData.createSummary (crow :: crest))])
    (hy1 : e2.exitCode (spark_vc_cmd rds cov nc vb2 sd2 u1) = 0)
    (hy2 : e2.exitCode (spark_vc_cmd rds cov nc vb2 sd2 u2) = 0)
    (hv1 : e2.writes (spark_vc_cmd rds cov nc vb2 sd2 u1) =
      [(create_summary_path u1, FileData.vcSummary (vrow :: vrest))])
    (hv2 : e2.writes (spark_vc_cmd rds cov nc vb2 sd2 u2) =
      [(create_summary_path u2, FileData.vcSummary (vrow :: vrest))])
    (hz1 : e3.exitCode (spark_test_cmd fit cp vb3 sd3 v1) = 0)
    (hz2 : e3.exitCode (spark_test_cmd fit cp vb3 sd3 v2) = 0)
    (ht1 : e3.writes (spark_test_cmd fit cp vb3 sd3 v1) =
      [(v1, FileData.testTable trows)])
    (ht2 : e3.writes (spark_test_cmd fit cp vb3 sd3 v2) =
      [(v2, FileData.testTable trows)]) :
    (∃ pre post, create_spark_object_cmd c l pc m sd1 t1 = pre ++ t1 :: post ∧
      create_spark_object_cmd c l pc m sd1 t2 = pre ++ t2 :: post) ∧
    (∃ pre post, spark_vc_cmd rds cov nc vb2 sd2 u1 = pre ++ u1 :: post ∧
      spark_vc_cmd rds cov nc vb2 sd2 u2 = pre ++ u2 :: post) ∧
    (∃ pre post, spark_test_cmd fit cp vb3 sd3 v1 = pre ++ v1 :: post ∧
      spark_test_cmd fit cp vb3 sd3 v2 = pre ++ v2 :: post) ∧
    (create_spark_object_run e1 fsA c l pc m sd1 t1).2.2 =
      Except.ok (create_result crow t1) ∧
    (create_spark_object_run e1 fsB c l pc m sd1 t2).2.2 =
      Except.ok (create_result crow t2) ∧
    (create_result crow t1).n_genes = (create_result crow t2).n_genes ∧
    (create_result crow t1).n_spots = (create_result crow t2).n_spots ∧
    (create_result crow t1).total_counts = (create_result crow t2).total_counts ∧
    (spark_vc_run e2 fsA rds cov nc vb2 sd2 u1).2.2 =
      Except.ok (vc_result vrow u1) ∧
    (spark_vc_run e2 fsB rds cov nc vb2 sd2 u2).2.2 =
      Except.ok (vc_result vrow u2) ∧
    (vc_result vrow u1).n_genes_fitted = (vc_result vrow u2).n_genes_fitted ∧
    (vc_result vrow u1).status = (vc_result vrow u2).status ∧
    (spark_test_run e3 fsA fit cp vb3 sd3 v1).2.2 =
      Except.ok (spark_test_parse trows v1) ∧
    (spark_test_run e3 fsB fit cp vb3 sd3 v2).2.2 =
      Except.ok (spark_test_parse trows v2) ∧
    (spark_test_parse trows v1).n_genes_tested =
      (spark_test_parse trows v2).n_genes_tested ∧
    (spark_test_parse trows v1).n_significant_genes =
      (spark_test_parse trows v2).n_significant_genes ∧
    (spark_test_parse trows v1).results_preview =
      (spark_test_parse trows v2).results_preview := by
  refine ⟨⟨["Rscript", R_SCRIPT_DIR ++ "/create_spark_object.R", "--counts", c,
      "--location", l, "--percentage", pyFloatStr pc, "--min_total_counts",
      toString m, "--seed", toString sd1, "--output"], [], rfl, rfl⟩,
    ?_,
    ⟨["Rscript", R_SCRIPT_DIR ++ "/spark_test.R", "--spark_object", fit,
      "--check_positive", pyBoolUpper cp, "--verbose", pyBoolUpper vb3,
      "--seed", toString sd3, "--output"], [], rfl, rfl⟩,
    create_run_ok e1 fsA c l pc m sd1 t1 crow crest hx1 hw1,
    create_run_ok e1 fsB c l pc m sd1 t2 crow crest hx2 hw2,
    rfl, rfl, rfl,
    vc_run_ok e2 fsA rds cov nc vb2 sd2 u1 vrow vrest hy1 hv1,
    vc_run_ok e2 fsB rds cov nc vb2 sd2 u2 vrow vrest hy2 hv2,
    rfl, rfl,
    test_run_ok_single e3 fsA fit cp vb3 sd3 v1 trows hz1 ht1,
    test_run_ok_single e3 fsB fit cp vb3 sd3 v2 trows hz2 ht2,
    rfl, rfl, rfl⟩
  rcases cov with _ | s
  · exact ⟨["Rscript", R_SCRIPT_DIR ++ "/spark_vc.R", "--spark_object", rds,
      "--num_core", toString nc, "--verbose", pyBoolUpper vb2,
      "--seed", toString sd2, "--output"], [], rfl, rfl⟩
  · by_cases hse : s = ""
    · subst hse
      exact ⟨["Rscript", R_SCRIPT_DIR ++ "/spark_vc.R", "--spark_object", rds,
        "--num_core", toString nc, "--verbose", pyBoolUpper vb2,
        "--seed", toString sd2, "--output"], [], rfl, rfl⟩
    · exact ⟨["Rscript", R_SCRIPT_DIR ++ "/spark_vc.R", "--spark_object", rds,
        "--num_core", toString nc, "--verbose", pyBoolUpper vb2,
        "--seed", toString sd2, "--output"], ["--covariates", s],
        by simp [spark_vc_cmd, hse], by simp [spark_vc_cmd, hse]⟩

/-- A deterministic engine for the Object Builder: exit code 0 always, and
the same summary rows regardless of which of the two temp output paths the
invocation names (the summary lands at the path derived from the output
argument, the last element of the vector). -/
def detCreateEngine : Engine :=
  { exitCode := fun _ => 0
    writes := fun c =>
      if c.getLast? = some "u.rds" then
        [(create_summary_path "u.rds",
          FileData.createSummary [CreateRow.mk 100 50 2000])]
      else
        [(create_summary_path "v.rds",
          FileData.createSummary [CreateRow.mk 100 50 2000])] }

/-- A deterministic engine for the Model Fitter, same shape as
`detCreateEngine`. -/
def detVcEngine : Engine :=
  { exitCode := fun _ => 0
    writes := fun c =>
      if c.getLast? = some "x.rds" then
        [(create_summary_path "x.rds", FileData.vcSummary [VcRow.mk 100 "success"])]
      else
        [(create_summary_path "y.rds", FileData.vcSummary [VcRow.mk 100 "success"])] }

/-- A deterministic engine for the Hypothesis Tester, same shape as
`detCreateEngine`: the same result table lands at whichever output path
the invocation names. -/
def detTestEngine : Engine :=
  { exitCode := fun _ => 0
    writes := fun c =>
      if c.getLast? = some "p.csv" then
        [("p.csv", FileData.testTable [])]
      else
        [("q.csv", FileData.testTable [])] }

/-- Claim C7 witness: two runs of each tool at concrete inputs differing
only in the temp output path. -/
theorem seed_determinism_identical_counts_witness :
    detCreateEngine.exitCode (create_spark_object_cmd "c.csv" "l.csv" 0 10 42
      "u.rds") = 0 ∧
    detCreateEngine.exitCode (create_spark_object_cmd "c.csv" "l.csv" 0 10 42
      "v.rds") = 0 ∧
    detCreateEngine.writes (create_spark_object_cmd "c.csv" "l.csv" 0 10 42
      "u.rds") = [(create_summary_path "u.rds",
        FileData.createSummary [CreateRow.mk 100 50 2000])] ∧
    detCreateEngine.writes (create_spark_object_cmd "c.csv" "l.csv" 0 10 42
      "v.rds") = [(create_summary_path "v.rds",
        FileData.createSummary [CreateRow.mk 100 50 2000])] ∧
    detVcEngine.exitCode (spark_vc_cmd "a.rds" none 1 false 42 "x.rds") = 0 ∧
    detVcEngine.exitCode (spark_vc_cmd "a.rds" none 1 false 42 "y.rds") = 0 ∧
    detVcEngine.writes (spark_vc_cmd "a.rds" none 1 false 42 "x.rds") =
      [(create_summary_path "x.rds", FileData.vcSummary [VcRow.mk 100 "success"])] ∧
    detVcEngine.writes (spark_vc_cmd "a.rds" none 1 false 42 "y.rds") =
      [(create_summary_path "y.rds", FileData.vcSummary [VcRow.mk 100 "success"])] ∧
    detTestEngine.exitCode (spark_test_cmd "b.rds" true false 7 "p.csv") = 0 ∧
    detTestEngine.exitCode (spark_test_cmd "b.rds" true false 7 "q.csv") = 0 ∧
    detTestEngine.writes (spark_test_cmd "b.rds" true false 7 "p.csv") =
      [("p.csv", FileData.testTable [])] ∧
    detTestEngine.writes (spark_test_cmd "b.rds" true false 7 "q.csv") =
      [("q.csv", FileData.testTable [])] ∧
    ((∃ pre post,
      create_spark_object_cmd "c.csv" "l.csv" 0 10 42 "u.rds" =
        pre ++ "u.rds" :: post ∧
      create_spark_object_cmd "c.csv" "l.csv" 0 10 42 "v.rds" =
        pre ++ "v.rds" :: post) ∧
    (∃ pre post,
      spark_vc_cmd "a.rds" none 1 false 42 "x.rds" = pre ++ "x.rds" :: post ∧
      spark_vc_cmd "a.rds" none 1 false 42 "y.rds" = pre ++ "y.rds" :: post) ∧
    (∃ pre post,
      spark_test_cmd "b.rds" true false 7 "p.csv" = pre ++ "p.csv" :: post ∧
      spark_test_cmd "b.rds" true false 7 "q.csv" = pre ++ "q.csv" :: post) ∧
    (create_spark_object_run detCreateEngine [] "c.csv" "l.csv" 0 10 42
      "u.rds").2.2 = Except.ok (create_result (CreateRow.mk 100 50 2000) "u.rds") ∧
    (create_spark_object_run detCreateEngine [] "c.csv" "l.csv" 0 10 42
      "v.rds").2.2 = Except.ok (create_result (CreateRow.mk 100 50 2000) "v.rds") ∧
    (create_result (CreateRow.mk 100 50 2000) "u.rds").n_genes =
      (create_result (CreateRow.mk 100 50 2000) "v.rds").n_genes ∧
    (create_result (CreateRow.mk 100 50 2000) "u.rds").n_spots =
      (create_result (CreateRow.mk 100 50 2000) "v.rds").n_spots ∧
    (create_result (CreateRow.mk 100 50 2000) "u.rds").total_counts =
      (create_result (CreateRow.mk 100 50 2000) "v.rds").total_counts ∧
    (spark_vc_run detVcEngine [] "a.rds" none 1 false 42 "x.rds").2.2 =
      Except.ok (vc_result (VcRow.mk 100 "success") "x.rds") ∧
    (spark_vc_run detVcEngine [] "a.rds" none 1 false 42 "y.rds").2.2 =
      Except.ok (vc_result (VcRow.mk 100 "success") "y.rds") ∧
    (vc_result (VcRow.mk 100 "success") "x.rds").n_genes_fitted =
      (vc_result (VcRow.mk 100 "success") "y.rds").n_genes_fitted ∧
    (vc_result (VcRow.mk 100 "success") "x.rds").status =
      (vc_result (VcRow.mk 100 "success") "y.rds").status ∧
    (spark_test_run detTestEngine [] "b.rds" true false 7 "p.csv").2.2 =
      Except.ok (spark_test_parse [] "p.csv") ∧
    (spark_test_run detTestEngine [] "b.rds" true false 7 "q.csv").2.2 =
      Except.ok (spark_test_parse [] "q.csv") ∧
    (spark_test_parse [] "p.csv").n_genes_tested =
      (spark_test_parse [] "q.csv").n_genes_tested ∧
    (spark_test_parse [] "p.csv").n_significant_genes =
      (spark_test_parse [] "q.csv").n_significant_genes ∧
    (spark_test_parse [] "p.csv").results_preview =
      (spark_test_parse [] "q.csv").results_preview) :=
  ⟨by decide, by decide, by decide, by decide, by decide, by decide, by decide,
   by decide, by decide, by decide, by decide, by decide,
   seed_determinism_identical_counts "c.csv" "l.csv" 0 10 42 "u.rds" "v.rds"
     "a.rds" none 1 false 42 "x.rds" "y.rds" "b.rds" true false 7 "p.csv"
     "q.csv" detCreateEngine detVcEngine detTestEngine [] []
     (CreateRow.mk 100 50 2000) [] (VcRow.mk 100 "success") [] []
     (by decide) (by decide) (by decide) (by decide) (by decide) (by decide)
     (by decide) (by decide) (by decide) (by decide) (by decide) (by decide)⟩

/-- Claim C8: the Object Builder invokes the engine exactly once, with the
flag arguments `--counts`, `--location`, `--percentage`,
`--min_total_counts`, `--seed` and `--output` in that order, each followed
by the rendering of the corresponding typed parameter, and the result
parses `n_genes`, `n_spots` and `total_counts` from the first row of the
summary table. -/
theorem create_spark_object_wire_contract (eng : Engine) (fs : FS)
    (c l : String) (pc : Rat) (m sd : Int) (o : String)
    (row : CreateRow) (rest : List CreateRow)
    (hx : eng.exitCode (create_spark_object_cmd c l pc m sd o) = 0)
    (hw : eng.writes (create_spark_object_cmd c l pc m sd o) =
      [(create_summary_path o, FileData.createSummary (row :: rest))]) :
    (create_spark_object_run eng fs c l pc m sd o).2.1 =
      [["Rscript", R_SCRIPT_DIR ++ "/create_spark_object.R",
        "--counts", c,
        "--location", l,
        "--percentage", pyFloatStr pc,
        "--min_total_counts", toString m,
        "--seed", toString sd,
        "--output", o]] ∧
    (create_spark_object_run eng fs c l pc m sd o).2.2 =
      Except.ok (create_result row o) ∧
    (create_result row o).n_genes = row.n_genes ∧
    (create_result row o).n_spots = row.n_spots ∧
    (create_result row o).total_counts = row.total_counts :=
  ⟨create_run_trace eng fs c l pc m sd o,
   create_run_ok eng fs c l pc m sd o row rest hx hw, rfl, rfl, rfl⟩

/-- Claim C8 witness: a concrete successful Object Builder call. -/
theorem create_spark_object_wire_contract_witness :
    okEngine.exitCode (create_spark_object_cmd "c.csv" "l.csv" 0 10 42
      "tmpa.rds") = 0 ∧
    okEngine.writes (create_spark_object_cmd "c.csv" "l.csv" 0 10 42
      "tmpa.rds") = [(create_summary_path "tmpa.rds",
        FileData.createSummary [CreateRow.mk 100 50 2000])] ∧
    ((create_spark_object_run okEngine [] "c.csv" "l.csv" 0 10 42
      "tmpa.rds").2.1 =
      [["Rscript", R_SCRIPT_DIR ++ "/create_spark_object.R",
        "--counts", "c.csv",
        "--location", "l.csv",
        "--percentage", pyFloatStr 0,
        "--min_total_counts", toString (10 : Int),
        "--seed", toString (42 : Int),
        "--output", "tmpa.rds"]] ∧
    (create_spark_object_run okEngine [] "c.csv" "l.csv" 0 10 42
      "tmpa.rds").2.2 =
      Except.ok (create_result (CreateRow.mk 100 50 2000) "tmpa.rds") ∧
    (create_result (CreateRow.mk 100 50 2000) "tmpa.rds").n_genes = 100 ∧
    (create_result (CreateRow.mk 100 50 2000) "tmpa.rds").n_spots = 50 ∧
    (create_result (CreateRow.mk 100 50 2000) "tmpa.rds").total_counts = 2000) :=
  ⟨by decide, by decide,
   create_spark_object_wire_contract okEngine [] "c.csv" "l.csv" 0 10 42
     "tmpa.rds" (CreateRow.mk 100 50 2000) [] (by decide) (by decide)⟩
